import Mathlib

/-!
Shallow embedding of the can-joystick frame-decode and event-emission
pipeline (src/main.cc). CAN frames are decoded by identifier into uinput
events; writes to the uinput channel may fail, in which case data-event
failures terminate the process with exit code -1 while a sync-event
failure is only logged. The write channel is modelled by an oracle
`ok : Nat -> Bool` giving the outcome of the n-th write attempt.
-/

namespace CanJoystick

/-- Event type for synchronization events (linux input headers). -/
def EV_SYN : Nat := 0x00

/-- Event type for key/button events (linux input headers). -/
def EV_KEY : Nat := 0x01

/-- Event type for absolute axis events (linux input headers). -/
def EV_ABS : Nat := 0x03

/-- Sync report code (linux input headers). -/
def SYN_REPORT : Nat := 0x00

/-- Axis code for the steering wheel (linux input headers). -/
def ABS_WHEEL : Nat := 0x08

/-- Axis code for the gas pedal (linux input headers). -/
def ABS_GAS : Nat := 0x09

/-- Axis code for the brake pedal (linux input headers). -/
def ABS_BRAKE : Nat := 0x0a

/-- Button code for gear-down paddle (linux input headers). -/
def BTN_GEAR_DOWN : Nat := 0x150

/-- Button code for gear-up paddle (linux input headers). -/
def BTN_GEAR_UP : Nat := 0x151

/-- CAN identifier of throttle-position frames (main.cc kThrottleId). -/
def kThrottleId : Nat := 0x01a1

/-- CAN identifier of steering-position frames (main.cc kSteeringId). -/
def kSteeringId : Nat := 0x01e5

/-- CAN identifier of brake-position frames (main.cc kBrakeId). -/
def kBrakeId : Nat := 0x00f1

/-- CAN identifier of paddle-shifter frames (main.cc kPaddleShifterId). -/
def kPaddleShifterId : Nat := 0x01f3

/-- Declared maximum of the brake axis (main.cc kBrakeLimit). -/
def kBrakeLimit : Int := 0x4b

/-- Declared maximum of the throttle axis (main.cc kThrottleLimit). -/
def kThrottleLimit : Int := 0xfe

/-- Declared half-range of the steering axis (main.cc kSteeringLimit). -/
def kSteeringLimit : Int := 0x1d00

/-- One uinput event record, mirroring struct input_event as used by the
program: an event type, a code, and a signed 32-bit value. -/
structure InputEvent where
  type : Nat
  code : Nat
  value : Int
  deriving DecidableEq, Repr

/-- One CAN frame as seen through struct usbcan_msg: a frame identifier,
a data length code, and the fixed 8-byte payload buffer. -/
structure CanFrame where
  can_id : Nat
  can_dlc : Nat
  data : Fin 8 → Nat

/-- The messages the program prints to stderr, one constructor per
fprintf site (the malformed-steering string is shared by the steering
handler and the paddle-shifter handler in the source). -/
inductive LogMsg where
  | failWriteThrottle
  | failWriteBrake
  | failWriteWheel
  | failWriteGearUp
  | failWriteGearDown
  | failWriteSync
  | malformedAccelerator
  | malformedBrake
  | malformedSteering
  deriving DecidableEq, Repr

/-- The observable output state: number of write attempts made so far,
events successfully written to the uinput channel in order, and stderr
log messages in order. -/
structure EmitState where
  attempts : Nat
  written : List InputEvent
  logs : List LogMsg
  deriving DecidableEq, Repr

/-- The state before any write or log. -/
def initState : EmitState := ⟨0, [], []⟩

/-- One call to write(uinput_fd, ...): the oracle decides whether this
attempt succeeds; on success the event is appended to the channel. -/
def writeEvent (ok : Nat → Bool) (e : InputEvent) (s : EmitState) :
    Bool × EmitState :=
  if ok s.attempts then
    (true, ⟨s.attempts + 1, s.written ++ [e], s.logs⟩)
  else
    (false, ⟨s.attempts + 1, s.written, s.logs⟩)

/-- Reinterpret a 16-bit pattern as a signed int16_t value, as the cast
in HandleSteeringPos does. -/
def int16OfBits (r : Nat) : Int :=
  if r < 32768 then (r : Int) else (r : Int) - 65536

/-- HandleThrottlePos from main.cc: on dlc 7, write one EV_ABS/ABS_GAS
event carrying the byte at offset 6; a failed write logs and exits -1;
on any other dlc, log a malformed diagnostic. -/
def HandleThrottlePos (ok : Nat → Bool) (msg : CanFrame) (s : EmitState) :
    Except (Int × EmitState) EmitState :=
  if msg.can_dlc = 7 then
    match writeEvent ok ⟨EV_ABS, ABS_GAS, (msg.data 6 : Int)⟩ s with
    | (true, s1) => .ok s1
    | (false, s1) =>
        .error (-1, ⟨s1.attempts, s1.written, s1.logs ++ [.failWriteThrottle]⟩)
  else
    .ok ⟨s.attempts, s.written, s.logs ++ [.malformedAccelerator]⟩

/-- HandleBrakePos from main.cc: on dlc 6, write one EV_ABS/ABS_BRAKE
event carrying the byte at offset 1; a failed write logs and exits -1;
on any other dlc, log a malformed diagnostic. -/
def HandleBrakePos (ok : Nat → Bool) (msg : CanFrame) (s : EmitState) :
    Except (Int × EmitState) EmitState :=
  if msg.can_dlc = 6 then
    match writeEvent ok ⟨EV_ABS, ABS_BRAKE, (msg.data 1 : Int)⟩ s with
    | (true, s1) => .ok s1
    | (false, s1) =>
        .error (-1, ⟨s1.attempts, s1.written, s1.logs ++ [.failWriteBrake]⟩)
  else
    .ok ⟨s.attempts, s.written, s.logs ++ [.malformedBrake]⟩

/-- HandleSteeringPos from main.cc: on dlc 8, read bytes 1-2 as a
big-endian signed 16-bit value and write one EV_ABS/ABS_WHEEL event
carrying its negation; a failed write logs and exits -1; on any other
dlc, log a malformed diagnostic. -/
def HandleSteeringPos (ok : Nat → Bool) (msg : CanFrame) (s : EmitState) :
    Except (Int × EmitState) EmitState :=
  if msg.can_dlc = 8 then
    match writeEvent ok
        ⟨EV_ABS, ABS_WHEEL, -(int16OfBits (msg.data 1 * 256 + msg.data 2))⟩ s with
    | (true, s1) => .ok s1
    | (false, s1) =>
        .error (-1, ⟨s1.attempts, s1.written, s1.logs ++ [.failWriteWheel]⟩)
  else
    .ok ⟨s.attempts, s.written, s.logs ++ [.malformedSteering]⟩

/-- HandlePaddleShifter from main.cc: on dlc 3, write one
EV_KEY/BTN_GEAR_UP event carrying bit 0 of byte 1 and one
EV_KEY/BTN_GEAR_DOWN event carrying bit 1 of byte 1, in that order; a
failed write logs and exits -1; on any other dlc, log a malformed
diagnostic (the source reuses the steering-position string here). -/
def HandlePaddleShifter (ok : Nat → Bool) (msg : CanFrame) (s : EmitState) :
    Except (Int × EmitState) EmitState :=
  if msg.can_dlc = 3 then
    match writeEvent ok
        ⟨EV_KEY, BTN_GEAR_UP, if msg.data 1 &&& 0x01 ≠ 0 then 1 else 0⟩ s with
    | (false, s1) =>
        .error (-1, ⟨s1.attempts, s1.written, s1.logs ++ [.failWriteGearUp]⟩)
    | (true, s1) =>
        match writeEvent ok
            ⟨EV_KEY, BTN_GEAR_DOWN,
              if msg.data 1 &&& 0x02 ≠ 0 then 1 else 0⟩ s1 with
        | (false, s2) =>
            .error
              (-1, ⟨s2.attempts, s2.written, s2.logs ++ [.failWriteGearDown]⟩)
        | (true, s2) => .ok s2
  else
    .ok ⟨s.attempts, s.written, s.logs ++ [.malformedSteering]⟩

/-- HandleCanMessage from main.cc: dispatch on the frame identifier; the
returned Bool is the handled flag (true exactly when the identifier is
one of the four recognized ones). -/
def HandleCanMessage (ok : Nat → Bool) (msg : CanFrame) (s : EmitState) :
    Except (Int × EmitState) (Bool × EmitState) :=
  if msg.can_id = kThrottleId then
    (HandleThrottlePos ok msg s).map (fun s1 => (true, s1))
  else if msg.can_id = kBrakeId then
    (HandleBrakePos ok msg s).map (fun s1 => (true, s1))
  else if msg.can_id = kSteeringId then
    (HandleSteeringPos ok msg s).map (fun s1 => (true, s1))
  else if msg.can_id = kPaddleShifterId then
    (HandlePaddleShifter ok msg s).map (fun s1 => (true, s1))
  else
    .ok (false, s)

/-- The per-frame loop of CanPacketCallback: fold HandleCanMessage over
the batch, OR-aggregating the handled flags as the source's bitwise
`handled |= ...` does. -/
def processFrames (ok : Nat → Bool) :
    List CanFrame → Bool → EmitState →
      Except (Int × EmitState) (Bool × EmitState)
  | [], handled, s => .ok (handled, s)
  | msg :: rest, handled, s =>
      match HandleCanMessage ok msg s with
      | .error e => .error e
      | .ok (h, s1) => processFrames ok rest (handled || h) s1

/-- The trailing synchronization marker event (EV_SYN / SYN_REPORT / 0). -/
def syncEvent : InputEvent := ⟨EV_SYN, SYN_REPORT, 0⟩

/-- CanPacketCallback from main.cc: process the batch in delivery order,
then, if any frame was handled, write one sync event; a failed sync
write is only logged and the callback still returns normally. -/
def CanPacketCallback (ok : Nat → Bool) (msgs : List CanFrame)
    (s : EmitState) : Except (Int × EmitState) EmitState :=
  match processFrames ok msgs false s with
  | .error e => .error e
  | .ok (handled, s1) =>
      if handled then
        match writeEvent ok syncEvent s1 with
        | (true, s2) => .ok s2
        | (false, s2) =>
            .ok ⟨s2.attempts, s2.written, s2.logs ++ [.failWriteSync]⟩
      else
        .ok s1

/-- The absmax array of the uinput descriptor built by InitUinputDevice:
zero-initialized, then the three axis maxima are set. -/
def absmax (code : Nat) : Int :=
  if code = ABS_WHEEL then kSteeringLimit
  else if code = ABS_GAS then kThrottleLimit
  else if code = ABS_BRAKE then kBrakeLimit
  else 0

/-- The absmin array of the uinput descriptor built by InitUinputDevice:
zero-initialized, then the wheel minimum is set. -/
def absmin (code : Nat) : Int :=
  if code = ABS_WHEEL then -kSteeringLimit else 0

/-- Whether an event's value lies within the axis range the descriptor
declares for its code. -/
def inDeclaredRange (e : InputEvent) : Bool :=
  decide (absmin e.code ≤ e.value) && decide (e.value ≤ absmax e.code)

/-- Whether an identifier is one of the four the decode switch matches. -/
def recognizedId (id : Nat) : Bool :=
  id == kThrottleId || id == kBrakeId || id == kSteeringId ||
    id == kPaddleShifterId

/-- The required data length for each recognized identifier (§4.1 table,
i.e. the dlc checks in the four handlers). -/
def declaredLen (id : Nat) : Nat :=
  if id = kThrottleId then 7
  else if id = kBrakeId then 6
  else if id = kSteeringId then 8
  else 3

/-- The diagnostic a recognized identifier's handler logs when the dlc
is wrong. -/
def malformedDiagFor (id : Nat) : LogMsg :=
  if id = kThrottleId then .malformedAccelerator
  else if id = kBrakeId then .malformedBrake
  else .malformedSteering

/-- The events one frame decodes to when every write succeeds: the
per-identifier decode table of the four handlers. -/
def frameEvents (msg : CanFrame) : List InputEvent :=
  if msg.can_id = kThrottleId then
    if msg.can_dlc = 7 then [⟨EV_ABS, ABS_GAS, (msg.data 6 : Int)⟩] else []
  else if msg.can_id = kBrakeId then
    if msg.can_dlc = 6 then [⟨EV_ABS, ABS_BRAKE, (msg.data 1 : Int)⟩] else []
  else if msg.can_id = kSteeringId then
    if msg.can_dlc = 8 then
      [⟨EV_ABS, ABS_WHEEL, -(int16OfBits (msg.data 1 * 256 + msg.data 2))⟩]
    else []
  else if msg.can_id = kPaddleShifterId then
    if msg.can_dlc = 3 then
      [⟨EV_KEY, BTN_GEAR_UP, if msg.data 1 &&& 0x01 ≠ 0 then 1 else 0⟩,
       ⟨EV_KEY, BTN_GEAR_DOWN, if msg.data 1 &&& 0x02 ≠ 0 then 1 else 0⟩]
    else []
  else []

/-- The diagnostics one frame raises: one malformed message when the
identifier is recognized but the dlc is wrong, none otherwise. -/
def frameDiags (msg : CanFrame) : List LogMsg :=
  if recognizedId msg.can_id then
    if msg.can_dlc = declaredLen msg.can_id then []
    else [malformedDiagFor msg.can_id]
  else []

/-- The write oracle under which every write succeeds. -/
def allOk : Nat → Bool := fun _ => true

/-- Concatenation of the per-frame events of a batch in delivery order. -/
def batchEvents : List CanFrame → List InputEvent
  | [] => []
  | msg :: rest => frameEvents msg ++ batchEvents rest

/-- Concatenation of the per-frame diagnostics of a batch. -/
def batchDiags : List CanFrame → List LogMsg
  | [] => []
  | msg :: rest => frameDiags msg ++ batchDiags rest

/-- Whether any frame of the batch has a recognized identifier. -/
def anyRecognized : List CanFrame → Bool
  | [] => false
  | msg :: rest => recognizedId msg.can_id || anyRecognized rest

/-- The full event sequence one callback invocation emits for a batch
when every write succeeds, starting from the clean state. -/
def emittedEvents (msgs : List CanFrame) : List InputEvent :=
  match CanPacketCallback allOk msgs initState with
  | .ok s => s.written
  | .error (_, s) => s.written

/-- A steering frame encoding the signed value v (two's complement,
big-endian) at offsets 1-2, all other bytes zero. -/
def steerFrame (v : Int) : CanFrame :=
  ⟨kSteeringId, 8,
    fun i =>
      if i = (1 : Fin 8) then (v % 65536).toNat / 256
      else if i = (2 : Fin 8) then (v % 65536).toNat % 256
      else 0⟩

/-- The wheel axis value the decoder emits for the steering frame
encoding v. -/
def wheelValue (v : Int) : Int :=
  (((frameEvents (steerFrame v)).headD ⟨0, 0, 0⟩).value)

/-- A throttle frame of correct length with payload byte 6 set to 0x80. -/
def throttleFrame80 : CanFrame :=
  ⟨kThrottleId, 7, fun i => if i = (6 : Fin 8) then 0x80 else 0⟩

/-- A throttle frame of correct length with payload byte 6 set to 0xff. -/
def throttleFrameFF : CanFrame :=
  ⟨kThrottleId, 7, fun i => if i = (6 : Fin 8) then 0xff else 0⟩

/-- A brake frame of correct length with payload byte 1 set to 0x20. -/
def brakeFrame20 : CanFrame :=
  ⟨kBrakeId, 6, fun i => if i = (1 : Fin 8) then 0x20 else 0⟩

/-- A steering frame of correct length carrying raw value 0x0100. -/
def steerFrame0100 : CanFrame :=
  ⟨kSteeringId, 8, fun i => if i = (1 : Fin 8) then 0x01 else 0⟩

/-- A paddle-shifter frame of correct length with both bits set. -/
def paddleFrame03 : CanFrame :=
  ⟨kPaddleShifterId, 3, fun i => if i = (1 : Fin 8) then 0x03 else 0⟩

/-- A paddle-shifter frame of correct length with all-zero payload. -/
def paddleFrame00 : CanFrame := ⟨kPaddleShifterId, 3, fun _ => 0⟩

/-- A throttle frame with the wrong length 5. -/
def shortThrottleFrame : CanFrame := ⟨kThrottleId, 5, fun _ => 0⟩

/-- A frame whose identifier matches no decode-table entry. -/
def unknownFrame : CanFrame := ⟨0x9999, 8, fun _ => 0⟩

/-- A brake frame of correct length with payload byte 1 set to 0xff. -/
def brakeFrameFF : CanFrame :=
  ⟨kBrakeId, 6, fun i => if i = (1 : Fin 8) then 0xff else 0⟩

/-- The write oracle under which every write fails. -/
def neverOk : Nat → Bool := fun _ => false

/-- The write oracle under which only the first write succeeds. -/
def failAfterFirst : Nat → Bool := fun n => n == 0

/-- When every write succeeds, one dispatch step returns normally, the
handled flag is exactly identifier recognition, and the state grows by
the frame's decode-table events and diagnostics. -/
theorem handle_allOk (msg : CanFrame) (s : EmitState) :
    HandleCanMessage allOk msg s =
      .ok (recognizedId msg.can_id,
        ⟨s.attempts + (frameEvents msg).length,
         s.written ++ frameEvents msg,
         s.logs ++ frameDiags msg⟩) := by
  simp only [HandleCanMessage, frameEvents, frameDiags, recognizedId,
    declaredLen, malformedDiagFor]
  split_ifs with h1 h2 h3 h4 h5 h6 h7 h8 <;>
    simp_all [HandleThrottlePos, HandleBrakePos, HandleSteeringPos,
      HandlePaddleShifter, writeEvent, allOk, Except.map,
      kThrottleId, kBrakeId, kSteeringId, kPaddleShifterId]

/-- When every write succeeds, the frame loop returns normally, the
aggregate handled flag is the OR of per-frame recognition, and the state
grows by the concatenated batch events and diagnostics. -/
theorem processFrames_allOk (msgs : List CanFrame) :
    ∀ (b : Bool) (s : EmitState),
      processFrames allOk msgs b s =
        .ok (b || anyRecognized msgs,
          ⟨s.attempts + (batchEvents msgs).length,
           s.written ++ batchEvents msgs,
           s.logs ++ batchDiags msgs⟩) := by
  induction msgs with
  | nil =>
      intro b s
      simp [processFrames, anyRecognized, batchEvents, batchDiags]
  | cons m rest ih =>
      intro b s
      simp [processFrames, handle_allOk, anyRecognized, batchEvents,
        batchDiags, ih, List.append_assoc, Bool.or_assoc, Nat.add_assoc]

/-- When every write succeeds, one callback invocation returns normally
and appends the batch events followed by one sync event exactly when
some frame was recognized. -/
theorem callback_allOk (msgs : List CanFrame) (s : EmitState) :
    CanPacketCallback allOk msgs s =
      .ok ⟨s.attempts + (batchEvents msgs).length +
             (if anyRecognized msgs then 1 else 0),
           s.written ++ batchEvents msgs ++
             (if anyRecognized msgs then [syncEvent] else []),
           s.logs ++ batchDiags msgs⟩ := by
  simp only [CanPacketCallback, processFrames_allOk, Bool.false_or]
  cases h : anyRecognized msgs <;> simp [writeEvent, allOk, h]

/-- The emitted event sequence of a batch is its per-frame events
followed by one sync event exactly when some frame was recognized. -/
theorem emittedEvents_eq (msgs : List CanFrame) :
    emittedEvents msgs =
      batchEvents msgs ++
        (if anyRecognized msgs then [syncEvent] else []) := by
  simp [emittedEvents, callback_allOk, initState]

/-- No per-frame decode-table event carries the sync event type. -/
theorem frameEvents_no_sync (msg : CanFrame) :
    ∀ e ∈ frameEvents msg, e.type ≠ EV_SYN := by
  simp only [frameEvents]
  split_ifs <;> simp [EV_ABS, EV_KEY, EV_SYN]

/-- No event of a batch's per-frame portion carries the sync type. -/
theorem batchEvents_no_sync (msgs : List CanFrame) :
    ∀ e ∈ batchEvents msgs, e.type ≠ EV_SYN := by
  induction msgs with
  | nil => simp [batchEvents]
  | cons m rest ih =>
      intro e he
      rcases List.mem_append.mp he with h | h
      · exact frameEvents_no_sync m e h
      · exact ih e h

/-- Reinterpreting the low 16 bits of the two's-complement encoding of a
value in int16_t range recovers the value. -/
theorem int16OfBits_encode (v : Int) (h1 : -32768 ≤ v) (h2 : v ≤ 32767) :
    int16OfBits ((v % 65536).toNat) = v := by
  unfold int16OfBits
  split <;> omega

/-- Any 16-bit pattern reinterprets to a value in int16_t range. -/
theorem int16OfBits_bounds (r : Nat) (h : r < 65536) :
    -32768 ≤ int16OfBits r ∧ int16OfBits r ≤ 32767 := by
  unfold int16OfBits
  split <;> omega

/-- Byte 1 of the encoding frame is the high byte of the low 16 bits. -/
theorem steerFrame_data1 (v : Int) :
    (steerFrame v).data 1 = (v % 65536).toNat / 256 := rfl

/-- Byte 2 of the encoding frame is the low byte of the low 16 bits. -/
theorem steerFrame_data2 (v : Int) :
    (steerFrame v).data 2 = (v % 65536).toNat % 256 := rfl

/-- The two payload bytes of the encoding frame recombine to the low 16
bits of the encoded value. -/
theorem steerFrame_raw (v : Int) :
    (steerFrame v).data 1 * 256 + (steerFrame v).data 2 =
      (v % 65536).toNat := by
  rw [steerFrame_data1, steerFrame_data2]
  omega

/-- The decode-table events of the frame encoding v, for v in int16_t
range: one wheel event carrying -v. -/
theorem frameEvents_steerFrame (v : Int) (h1 : -32768 ≤ v)
    (h2 : v ≤ 32767) :
    frameEvents (steerFrame v) = [⟨EV_ABS, ABS_WHEEL, -v⟩] := by
  unfold frameEvents
  rw [show (steerFrame v).can_id = kSteeringId from rfl,
    show (steerFrame v).can_dlc = 8 from rfl,
    if_neg (show ¬kSteeringId = kThrottleId by decide),
    if_neg (show ¬kSteeringId = kBrakeId by decide),
    if_pos rfl, if_pos rfl, steerFrame_raw, int16OfBits_encode v h1 h2]

/-- The wheel value decoded from the frame encoding v is -v. -/
theorem wheelValue_eq (v : Int) (h1 : -32768 ≤ v) (h2 : v ≤ 32767) :
    wheelValue v = -v := by
  unfold wheelValue
  rw [frameEvents_steerFrame v h1 h2]
  rfl

/-- The batch recognition flag is true exactly when some frame of the
batch has a recognized identifier. -/
theorem anyRecognized_iff (msgs : List CanFrame) :
    anyRecognized msgs = true ↔
      ∃ m ∈ msgs, recognizedId m.can_id = true := by
  induction msgs with
  | nil => simp [anyRecognized]
  | cons m rest ih => simp [anyRecognized, Bool.or_eq_true, ih]

/-- A dispatch step on an unrecognized identifier returns the state
untouched with the handled flag false, under any write oracle. -/
theorem handle_unrecognized (ok : Nat → Bool) (msg : CanFrame)
    (s : EmitState) (h : recognizedId msg.can_id = false) :
    HandleCanMessage ok msg s = .ok (false, s) := by
  simp only [recognizedId, Bool.or_eq_false_iff, beq_eq_false_iff_ne,
    ne_eq] at h
  obtain ⟨⟨⟨ha, hb⟩, hc⟩, hd⟩ := h
  simp [HandleCanMessage, ha, hb, hc, hd]

/-- The frame loop over a batch of only unrecognized identifiers leaves
the state and flag untouched, under any write oracle. -/
theorem processFrames_unrecognized (ok : Nat → Bool)
    (msgs : List CanFrame) :
    ∀ s : EmitState, (∀ m ∈ msgs, recognizedId m.can_id = false) →
      processFrames ok msgs false s = .ok (false, s) := by
  induction msgs with
  | nil => intro s _; simp [processFrames]
  | cons m rest ih =>
      intro s h
      have hm := handle_unrecognized ok m s (h m (List.mem_cons_self m rest))
      simp only [processFrames, hm, Bool.or_false]
      exact ih s (fun m' hm' => h m' (List.mem_cons_of_mem _ hm'))

/-- The per-frame decode-table events satisfy the payload-determined
value bounds for each axis code. -/
theorem frameEvents_bounds (msg : CanFrame) (h : ∀ i, msg.data i < 256) :
    ∀ e ∈ frameEvents msg,
      (e.code = ABS_GAS → 0 ≤ e.value ∧ e.value ≤ 255) ∧
      (e.code = ABS_BRAKE → 0 ≤ e.value ∧ e.value ≤ 255) ∧
      (e.code = ABS_WHEEL → -32767 ≤ e.value ∧ e.value ≤ 32768) := by
  have h1 := h 1
  have h2 := h 2
  have h6 := h 6
  unfold frameEvents
  split_ifs <;> intro e he <;> simp only [List.mem_singleton,
    List.mem_cons, List.not_mem_nil, or_false] at he
  · subst he
    dsimp only
    refine ⟨fun _ => ⟨?_, ?_⟩, fun hc => absurd hc (by decide),
      fun hc => absurd hc (by decide)⟩ <;> omega
  · subst he
    dsimp only
    refine ⟨fun hc => absurd hc (by decide), fun _ => ⟨?_, ?_⟩,
      fun hc => absurd hc (by decide)⟩ <;> omega
  · subst he
    dsimp only
    have hr : msg.data 1 * 256 + msg.data 2 < 65536 := by omega
    have hb := int16OfBits_bounds (msg.data 1 * 256 + msg.data 2) hr
    refine ⟨fun hc => absurd hc (by decide),
      fun hc => absurd hc (by decide), fun _ => ⟨?_, ?_⟩⟩ <;> omega
  all_goals
    rcases he with he | he <;> subst he <;>
      exact ⟨fun hc => absurd hc (by decide),
        fun hc => absurd hc (by decide),
        fun hc => absurd hc (by decide)⟩

/-- The concatenated batch events satisfy the payload-determined value
bounds for each axis code. -/
theorem batchEvents_bounds (msgs : List CanFrame)
    (h : ∀ m ∈ msgs, ∀ i, m.data i < 256) :
    ∀ e ∈ batchEvents msgs,
      (e.code = ABS_GAS → 0 ≤ e.value ∧ e.value ≤ 255) ∧
      (e.code = ABS_BRAKE → 0 ≤ e.value ∧ e.value ≤ 255) ∧
      (e.code = ABS_WHEEL → -32767 ≤ e.value ∧ e.value ≤ 32768) := by
  induction msgs with
  | nil => simp [batchEvents]
  | cons m rest ih =>
      intro e he
      rcases List.mem_append.mp he with hf | hb
      · exact frameEvents_bounds m (h m (List.mem_cons_self m rest)) e hf
      · exact ih (fun m' hm' => h m' (List.mem_cons_of_mem _ hm')) e hb

/-- Every error a dispatch step can produce carries exit code -1. -/
theorem handle_error_code (ok : Nat → Bool) (msg : CanFrame)
    (s : EmitState) (c : Int) (s1 : EmitState)
    (h : HandleCanMessage ok msg s = .error (c, s1)) : c = -1 := by
  unfold HandleCanMessage HandleThrottlePos HandleBrakePos
    HandleSteeringPos HandlePaddleShifter writeEvent Except.map at h
  split_ifs at h <;> simp_all
  all_goals split_ifs at h
  all_goals simp_all

/-- Every error the frame loop can produce carries exit code -1. -/
theorem processFrames_error_code (ok : Nat → Bool)
    (msgs : List CanFrame) :
    ∀ (b : Bool) (s : EmitState) (c : Int) (s1 : EmitState),
      processFrames ok msgs b s = .error (c, s1) → c = -1 := by
  induction msgs with
  | nil => intro b s c s1 h; simp [processFrames] at h
  | cons m rest ih =>
      intro b s c s1 h
      simp only [processFrames] at h
      cases hH : HandleCanMessage ok m s with
      | error e =>
          rw [hH] at h
          simp only [] at h
          rcases e with ⟨ce, se⟩
          have hc := handle_error_code ok m s ce se hH
          simp at h
          omega
      | ok p =>
          rcases p with ⟨hf, s2⟩
          rw [hH] at h
          exact ih _ _ _ _ h

/-- Claim C2: for every batch processed in delivery order, if at least
one frame's identifier is recognized (including malformed-but-recognized
frames) then exactly one sync marker event is emitted, strictly after
all per-frame events of the batch; if no frame's identifier is
recognized, no sync event is emitted. -/
theorem batch_sync_contract (msgs : List CanFrame) :
    ((∃ m ∈ msgs, recognizedId m.can_id = true) →
      ∃ es, emittedEvents msgs = es ++ [syncEvent] ∧
        ∀ e ∈ es, e.type ≠ EV_SYN) ∧
    ((∀ m ∈ msgs, recognizedId m.can_id = false) →
      ∀ e ∈ emittedEvents msgs, e.type ≠ EV_SYN) := by
  constructor
  · intro h
    have ha : anyRecognized msgs = true := (anyRecognized_iff msgs).mpr h
    refine ⟨batchEvents msgs, ?_, batchEvents_no_sync msgs⟩
    rw [emittedEvents_eq]
    simp [ha]
  · intro h
    have ha : anyRecognized msgs = false := by
      cases hb : anyRecognized msgs
      · rfl
      · obtain ⟨m, hm, hrec⟩ := (anyRecognized_iff msgs).mp hb
        rw [h m hm] at hrec
        exact absurd hrec (by simp)
    rw [emittedEvents_eq]
    simpa [ha] using batchEvents_no_sync msgs

/-- Concrete check of Claim C2's theorem: a single-throttle batch emits
its axis event then exactly one trailing sync; a single unrecognized
frame emits no sync at all. -/
theorem batch_sync_contract_witness :
    (∃ es, emittedEvents [throttleFrame80] = es ++ [syncEvent] ∧
      ∀ e ∈ es, e.type ≠ EV_SYN) ∧
    (∀ e ∈ emittedEvents [unknownFrame], e.type ≠ EV_SYN) :=
  ⟨(batch_sync_contract [throttleFrame80]).1
      ⟨throttleFrame80, List.mem_singleton.mpr rfl, rfl⟩,
   (batch_sync_contract [unknownFrame]).2
      (by intro m hm; rw [List.mem_singleton] at hm; subst hm; rfl)⟩

/-- Claim C3: a frame with a recognized identifier and the declared
length decodes to exactly the events of the table: throttle emits one
Gas axis event carrying byte 6, brake one Brake axis event carrying
byte 1, steering one Wheel axis event carrying the negated big-endian
signed 16-bit value of bytes 1-2, and the paddle shifter one GearUp and
one GearDown button event carrying bits 0 and 1 of byte 1. -/
theorem wellformed_decode_table :
    (∀ (msg : CanFrame) (s : EmitState),
      msg.can_id = kThrottleId → msg.can_dlc = 7 →
      HandleCanMessage allOk msg s =
        .ok (true, ⟨s.attempts + 1,
          s.written ++ [⟨EV_ABS, ABS_GAS, (msg.data 6 : Int)⟩],
          s.logs⟩)) ∧
    (∀ (msg : CanFrame) (s : EmitState),
      msg.can_id = kBrakeId → msg.can_dlc = 6 →
      HandleCanMessage allOk msg s =
        .ok (true, ⟨s.attempts + 1,
          s.written ++ [⟨EV_ABS, ABS_BRAKE, (msg.data 1 : Int)⟩],
          s.logs⟩)) ∧
    (∀ (msg : CanFrame) (s : EmitState),
      msg.can_id = kSteeringId → msg.can_dlc = 8 →
      HandleCanMessage allOk msg s =
        .ok (true, ⟨s.attempts + 1,
          s.written ++ [⟨EV_ABS, ABS_WHEEL,
            -(int16OfBits (msg.data 1 * 256 + msg.data 2))⟩],
          s.logs⟩)) ∧
    (∀ (msg : CanFrame) (s : EmitState),
      msg.can_id = kPaddleShifterId → msg.can_dlc = 3 →
      HandleCanMessage allOk msg s =
        .ok (true, ⟨s.attempts + 2,
          s.written ++
            [⟨EV_KEY, BTN_GEAR_UP,
               if msg.data 1 &&& 0x01 ≠ 0 then 1 else 0⟩,
             ⟨EV_KEY, BTN_GEAR_DOWN,
               if msg.data 1 &&& 0x02 ≠ 0 then 1 else 0⟩],
          s.logs⟩)) := by
  refine ⟨?_, ?_, ?_, ?_⟩ <;> intro msg s hid hdlc <;>
    rw [handle_allOk] <;>
    simp [frameEvents, frameDiags, recognizedId, declaredLen, hid, hdlc,
      kThrottleId, kBrakeId, kSteeringId, kPaddleShifterId]

/-- Concrete check of Claim C3's theorem on the four end-to-end
scenarios of the spec. -/
theorem wellformed_decode_table_witness :
    HandleCanMessage allOk throttleFrame80 initState =
      .ok (true, ⟨1, [⟨EV_ABS, ABS_GAS, 128⟩], []⟩) ∧
    HandleCanMessage allOk brakeFrame20 initState =
      .ok (true, ⟨1, [⟨EV_ABS, ABS_BRAKE, 32⟩], []⟩) ∧
    HandleCanMessage allOk steerFrame0100 initState =
      .ok (true, ⟨1, [⟨EV_ABS, ABS_WHEEL, -256⟩], []⟩) ∧
    HandleCanMessage allOk paddleFrame03 initState =
      .ok (true, ⟨2, [⟨EV_KEY, BTN_GEAR_UP, 1⟩,
        ⟨EV_KEY, BTN_GEAR_DOWN, 1⟩], []⟩) := by
  refine ⟨?_, ?_, ?_, ?_⟩
  · simpa [throttleFrame80, initState] using
      wellformed_decode_table.1 throttleFrame80 initState rfl rfl
  · simpa [brakeFrame20, initState] using
      wellformed_decode_table.2.1 brakeFrame20 initState rfl rfl
  · have h := wellformed_decode_table.2.2.1 steerFrame0100 initState
      rfl rfl
    rw [h]
    norm_num [steerFrame0100, initState, int16OfBits]
    decide
  · have h := wellformed_decode_table.2.2.2 paddleFrame03 initState
      rfl rfl
    rw [h]
    norm_num [paddleFrame03, initState]
    decide

/-- Claim C5: a frame with a recognized identifier but the wrong length
emits zero events, raises exactly one malformed-frame diagnostic,
performs no output write, counts as handled, and does not abort the
batch: the loop continues with the next frame. -/
theorem malformed_frame_policy (ok : Nat → Bool) (msg : CanFrame)
    (s : EmitState) (hrec : recognizedId msg.can_id = true)
    (hlen : msg.can_dlc ≠ declaredLen msg.can_id) :
    HandleCanMessage ok msg s =
      .ok (true, ⟨s.attempts, s.written,
        s.logs ++ [malformedDiagFor msg.can_id]⟩) ∧
    ∀ (rest : List CanFrame) (b : Bool),
      processFrames ok (msg :: rest) b s =
        processFrames ok rest true
          ⟨s.attempts, s.written,
            s.logs ++ [malformedDiagFor msg.can_id]⟩ := by
  have hmain : HandleCanMessage ok msg s =
      .ok (true, ⟨s.attempts, s.written,
        s.logs ++ [malformedDiagFor msg.can_id]⟩) := by
    obtain ⟨mid, mdlc, mdata⟩ := msg
    simp only [recognizedId, Bool.or_eq_true, beq_iff_eq] at hrec
    dsimp only at hrec hlen ⊢
    rcases hrec with ((rfl | rfl) | rfl) | rfl <;>
      simp only [declaredLen, malformedDiagFor, kThrottleId, kBrakeId,
        kSteeringId, kPaddleShifterId] at hlen ⊢ <;>
      norm_num at hlen ⊢ <;>
      simp [HandleCanMessage, HandleThrottlePos, HandleBrakePos,
        HandleSteeringPos, HandlePaddleShifter, hlen, Except.map,
        kThrottleId, kBrakeId, kSteeringId, kPaddleShifterId]
  refine ⟨hmain, fun rest b => ?_⟩
  simp [processFrames, hmain]

/-- Concrete check of Claim C5's theorem: a throttle frame of length 5
yields one diagnostic, no events, no write attempt, and the loop goes
on. -/
theorem malformed_frame_policy_witness :
    HandleCanMessage allOk shortThrottleFrame initState =
      .ok (true, ⟨0, [], [.malformedAccelerator]⟩) ∧
    processFrames allOk [shortThrottleFrame] false initState =
      processFrames allOk [] true ⟨0, [], [.malformedAccelerator]⟩ := by
  have h := malformed_frame_policy allOk shortThrottleFrame initState
    rfl (by decide)
  constructor
  · simpa [initState] using h.1
  · simpa [initState] using h.2 [] false

/-- Claim C6: steering decode is an order-preserving negation: a
well-formed steering frame carrying raw big-endian signed value v at
offsets 1-2 emits Wheel value -v; raw values v and -v decode to
mutually negated Wheel values; and v < w on raw values implies the
decoded Wheel value of v exceeds that of w. -/
theorem steering_negation_order :
    (∀ (msg : CanFrame) (s : EmitState),
      msg.can_id = kSteeringId → msg.can_dlc = 8 →
      HandleCanMessage allOk msg s =
        .ok (true, ⟨s.attempts + 1,
          s.written ++ [⟨EV_ABS, ABS_WHEEL,
            -(int16OfBits (msg.data 1 * 256 + msg.data 2))⟩],
          s.logs⟩)) ∧
    (∀ v : Int, -32768 ≤ v → v ≤ 32767 → wheelValue v = -v) ∧
    (∀ v w : Int, -32768 ≤ v → v ≤ 32767 → -32768 ≤ w → w ≤ 32767 →
      (w = -v → wheelValue w = -wheelValue v) ∧
      (v < w → wheelValue w < wheelValue v)) := by
  refine ⟨?_, ?_, ?_⟩
  · intro msg s hid hdlc
    rw [handle_allOk]
    simp [frameEvents, frameDiags, recognizedId, declaredLen, hid, hdlc,
      kThrottleId, kBrakeId, kSteeringId, kPaddleShifterId]
  · intro v h1 h2
    exact wheelValue_eq v h1 h2
  · intro v w hv1 hv2 hw1 hw2
    constructor
    · intro he
      rw [wheelValue_eq w hw1 hw2, wheelValue_eq v hv1 hv2, he]
    · intro hlt
      rw [wheelValue_eq w hw1 hw2, wheelValue_eq v hv1 hv2]
      omega

/-- Concrete check of Claim C6's theorem: raw value 0x0100 decodes to
Wheel -256, values 1 and -1 decode to negations of each other, and the
order flips. -/
theorem steering_negation_order_witness :
    wheelValue 256 = -256 ∧
    wheelValue 1 = -wheelValue (-1) ∧
    wheelValue 1 < wheelValue (-1) := by
  have h3 := steering_negation_order.2.2 (-1) 1 (by norm_num)
    (by norm_num) (by norm_num) (by norm_num)
  exact ⟨steering_negation_order.2.1 256 (by norm_num) (by norm_num),
    h3.1 (by norm_num), h3.2 (by norm_num)⟩

/-- Claim C7: a well-formed paddle-shifter frame always decodes to
exactly two button events, GearUp then GearDown, each reflecting its
bit of byte 1, including the all-zero payload where both are released. -/
theorem paddle_always_two_events (msg : CanFrame) (s : EmitState)
    (hid : msg.can_id = kPaddleShifterId) (hdlc : msg.can_dlc = 3) :
    HandleCanMessage allOk msg s =
      .ok (true, ⟨s.attempts + 2,
        s.written ++
          [⟨EV_KEY, BTN_GEAR_UP,
             if msg.data 1 &&& 0x01 ≠ 0 then 1 else 0⟩,
           ⟨EV_KEY, BTN_GEAR_DOWN,
             if msg.data 1 &&& 0x02 ≠ 0 then 1 else 0⟩],
        s.logs⟩) ∧
    (frameEvents msg).length = 2 := by
  constructor
  · rw [handle_allOk]
    simp [frameEvents, frameDiags, recognizedId, declaredLen, hid, hdlc,
      kThrottleId, kBrakeId, kSteeringId, kPaddleShifterId]
  · simp [frameEvents, hid, hdlc,
      kThrottleId, kBrakeId, kSteeringId, kPaddleShifterId]

/-- Concrete check of Claim C7's theorem on the all-zero payload: both
buttons are emitted as released. -/
theorem paddle_always_two_events_witness :
    HandleCanMessage allOk paddleFrame00 initState =
      .ok (true, ⟨2, [⟨EV_KEY, BTN_GEAR_UP, 0⟩,
        ⟨EV_KEY, BTN_GEAR_DOWN, 0⟩], []⟩) ∧
    (frameEvents paddleFrame00).length = 2 := by
  have h := paddle_always_two_events paddleFrame00 initState rfl rfl
  refine ⟨?_, h.2⟩
  have h1 := h.1
  rw [h1]
  norm_num [paddleFrame00, initState]

/-- Claim C8: a frame with an unrecognized identifier emits zero
events, raises zero diagnostics, performs no output write, is not
counted as handled, and a batch of only such frames produces no output
at all, under any write oracle. -/
theorem unrecognized_silent :
    (∀ (ok : Nat → Bool) (msg : CanFrame) (s : EmitState),
      recognizedId msg.can_id = false →
      HandleCanMessage ok msg s = .ok (false, s)) ∧
    (∀ (ok : Nat → Bool) (msgs : List CanFrame) (s : EmitState),
      (∀ m ∈ msgs, recognizedId m.can_id = false) →
      CanPacketCallback ok msgs s = .ok s) := by
  refine ⟨fun ok msg s h => handle_unrecognized ok msg s h,
    fun ok msgs s h => ?_⟩
  simp [CanPacketCallback, processFrames_unrecognized ok msgs s h]

/-- Concrete check of Claim C8's theorem: an unknown identifier leaves
the state untouched, alone and as a whole batch. -/
theorem unrecognized_silent_witness :
    HandleCanMessage allOk unknownFrame initState = .ok (false, initState) ∧
    CanPacketCallback allOk [unknownFrame] initState = .ok initState :=
  ⟨unrecognized_silent.1 allOk unknownFrame initState rfl,
   unrecognized_silent.2 allOk [unknownFrame] initState
     (by intro m hm; rw [List.mem_singleton] at hm; subst hm; rfl)⟩

/-- Claim C9: batch processing is stateless and deterministic: one
callback invocation always returns normally under a fault-free channel,
and the events and diagnostics it appends are a function of the batch
alone — identical to what the same batch produces from the clean
initial state, whatever state earlier batches left behind. -/
theorem batch_processing_stateless (msgs : List CanFrame)
    (s : EmitState) :
    ∃ s1, CanPacketCallback allOk msgs s = .ok s1 ∧
      s1.written = s.written ++ emittedEvents msgs ∧
      s1.logs = s.logs ++ batchDiags msgs := by
  refine ⟨_, callback_allOk msgs s, ?_, rfl⟩
  simp [emittedEvents_eq, List.append_assoc]

/-- Claim C10: well-formed throttle and brake frames emit the extracted
unsigned byte verbatim, hence a value in [0, 255] and never negative;
no clamping to the declared maxima is applied, as payload byte 0xff
yields 255, above both declared maxima 0xfe and 0x4b. -/
theorem throttle_brake_byte_verbatim :
    (∀ (msg : CanFrame) (s : EmitState), (∀ i, msg.data i < 256) →
      msg.can_id = kThrottleId → msg.can_dlc = 7 →
      HandleCanMessage allOk msg s =
        .ok (true, ⟨s.attempts + 1,
          s.written ++ [⟨EV_ABS, ABS_GAS, (msg.data 6 : Int)⟩],
          s.logs⟩) ∧
      0 ≤ (msg.data 6 : Int) ∧ (msg.data 6 : Int) ≤ 255) ∧
    (∀ (msg : CanFrame) (s : EmitState), (∀ i, msg.data i < 256) →
      msg.can_id = kBrakeId → msg.can_dlc = 6 →
      HandleCanMessage allOk msg s =
        .ok (true, ⟨s.attempts + 1,
          s.written ++ [⟨EV_ABS, ABS_BRAKE, (msg.data 1 : Int)⟩],
          s.logs⟩) ∧
      0 ≤ (msg.data 1 : Int) ∧ (msg.data 1 : Int) ≤ 255) ∧
    (frameEvents throttleFrameFF = [⟨EV_ABS, ABS_GAS, 255⟩] ∧
      kThrottleLimit < 255 ∧
      frameEvents brakeFrameFF = [⟨EV_ABS, ABS_BRAKE, 255⟩] ∧
      kBrakeLimit < 255) := by
  refine ⟨fun msg s hw hid hdlc => ⟨?_, ?_, ?_⟩,
    fun msg s hw hid hdlc => ⟨?_, ?_, ?_⟩, by decide⟩
  · rw [handle_allOk]
    simp [frameEvents, frameDiags, recognizedId, declaredLen, hid, hdlc,
      kThrottleId, kBrakeId, kSteeringId, kPaddleShifterId]
  · positivity
  · have := hw 6; omega
  · rw [handle_allOk]
    simp [frameEvents, frameDiags, recognizedId, declaredLen, hid, hdlc,
      kThrottleId, kBrakeId, kSteeringId, kPaddleShifterId]
  · positivity
  · have := hw 1; omega

/-- Concrete check of Claim C10's theorem: throttle byte 0xff emits Gas
255 and brake byte 0x20 emits Brake 32, verbatim. -/
theorem throttle_brake_byte_verbatim_witness :
    HandleCanMessage allOk throttleFrameFF initState =
      .ok (true, ⟨1, [⟨EV_ABS, ABS_GAS, 255⟩], []⟩) ∧
    HandleCanMessage allOk brakeFrame20 initState =
      .ok (true, ⟨1, [⟨EV_ABS, ABS_BRAKE, 32⟩], []⟩) := by
  constructor
  · have h := (throttle_brake_byte_verbatim.1 throttleFrameFF initState
      (by decide) rfl rfl).1
    rw [h]
    norm_num [throttleFrameFF, initState]
  · have h := (throttle_brake_byte_verbatim.2.1 brakeFrame20 initState
      (by decide) rfl rfl).1
    rw [h]
    norm_num [brakeFrame20, initState]

/-- Claim C1 counterexample: the well-formed throttle frame whose
payload byte 6 is 0xff emits AxisAbsolute(Gas) with value 255, which
lies outside the declared Gas range [0, 0xfe] of the device
descriptor — the decode transform does not enforce the declared
range. -/
theorem axis_value_escapes_declared_range :
    (∀ i, throttleFrameFF.data i < 256) ∧
    emittedEvents [throttleFrameFF] =
      [⟨EV_ABS, ABS_GAS, 255⟩, syncEvent] ∧
    inDeclaredRange ⟨EV_ABS, ABS_GAS, 255⟩ = false := by decide

/-- Claim C1 amended: every AxisAbsolute event emitted for well-formed
frames has its value in the payload-determined range of its transform —
Gas in [0, 255], Brake in [0, 255], Wheel in [-32767, 32768] — which is
not contained in the declared descriptor ranges. -/
theorem axis_value_payload_bounds (msgs : List CanFrame)
    (h : ∀ m ∈ msgs, ∀ i, m.data i < 256) :
    ∀ e ∈ emittedEvents msgs, e.type = EV_ABS →
      (e.code = ABS_GAS → 0 ≤ e.value ∧ e.value ≤ 255) ∧
      (e.code = ABS_BRAKE → 0 ≤ e.value ∧ e.value ≤ 255) ∧
      (e.code = ABS_WHEEL → -32767 ≤ e.value ∧ e.value ≤ 32768) := by
  intro e he _
  rw [emittedEvents_eq] at he
  rcases List.mem_append.mp he with hb | hs
  · exact batchEvents_bounds msgs h e hb
  · have hes : e = syncEvent := by
      cases hr : anyRecognized msgs <;> simp [hr] at hs
      exact hs
    subst hes
    exact ⟨fun hc => absurd hc (by decide),
      fun hc => absurd hc (by decide), fun hc => absurd hc (by decide)⟩

/-- Concrete check of Claim C1's amended theorem: the wheel event
emitted for raw steering value 0x0100 carries -256, inside the
payload-determined wheel range. -/
theorem axis_value_payload_bounds_witness :
    -32767 ≤ ((⟨EV_ABS, ABS_WHEEL, -256⟩ : InputEvent)).value ∧
      ((⟨EV_ABS, ABS_WHEEL, -256⟩ : InputEvent)).value ≤ 32768 :=
  (axis_value_payload_bounds [steerFrame0100] (by decide)
    ⟨EV_ABS, ABS_WHEEL, -256⟩ (by decide) rfl).2.2 rfl

/-- Claim C4: failure severity is asymmetric by event class: a failed
write of an axis or button event makes the handler terminate the
process immediately with exit code -1 — and every error the callback
can produce carries the non-zero code -1 — while a failed write of the
trailing sync marker only appends a log message and the callback still
returns normally with the written events unchanged. -/
theorem write_failure_asymmetry :
    (∀ (ok : Nat → Bool) (msg : CanFrame) (s : EmitState),
      msg.can_id = kThrottleId → msg.can_dlc = 7 →
      ok s.attempts = false →
      HandleCanMessage ok msg s =
        .error (-1, ⟨s.attempts + 1, s.written,
          s.logs ++ [.failWriteThrottle]⟩)) ∧
    (∀ (ok : Nat → Bool) (msg : CanFrame) (s : EmitState),
      msg.can_id = kBrakeId → msg.can_dlc = 6 →
      ok s.attempts = false →
      HandleCanMessage ok msg s =
        .error (-1, ⟨s.attempts + 1, s.written,
          s.logs ++ [.failWriteBrake]⟩)) ∧
    (∀ (ok : Nat → Bool) (msg : CanFrame) (s : EmitState),
      msg.can_id = kSteeringId → msg.can_dlc = 8 →
      ok s.attempts = false →
      HandleCanMessage ok msg s =
        .error (-1, ⟨s.attempts + 1, s.written,
          s.logs ++ [.failWriteWheel]⟩)) ∧
    (∀ (ok : Nat → Bool) (msg : CanFrame) (s : EmitState),
      msg.can_id = kPaddleShifterId → msg.can_dlc = 3 →
      ok s.attempts = false →
      HandleCanMessage ok msg s =
        .error (-1, ⟨s.attempts + 1, s.written,
          s.logs ++ [.failWriteGearUp]⟩)) ∧
    (∀ (ok : Nat → Bool) (msg : CanFrame) (s : EmitState),
      msg.can_id = kPaddleShifterId → msg.can_dlc = 3 →
      ok s.attempts = true → ok (s.attempts + 1) = false →
      HandleCanMessage ok msg s =
        .error (-1, ⟨s.attempts + 2,
          s.written ++ [⟨EV_KEY, BTN_GEAR_UP,
            if msg.data 1 &&& 0x01 ≠ 0 then 1 else 0⟩],
          s.logs ++ [.failWriteGearDown]⟩)) ∧
    (∀ (ok : Nat → Bool) (msgs : List CanFrame) (s : EmitState)
      (c : Int) (s1 : EmitState),
      CanPacketCallback ok msgs s = .error (c, s1) → c = -1) ∧
    (∀ (ok : Nat → Bool) (msgs : List CanFrame) (s s1 : EmitState),
      processFrames ok msgs false s = .ok (true, s1) →
      ok s1.attempts = false →
      CanPacketCallback ok msgs s =
        .ok ⟨s1.attempts + 1, s1.written,
          s1.logs ++ [.failWriteSync]⟩) := by
  refine ⟨?_, ?_, ?_, ?_, ?_, ?_, ?_⟩
  · intro ok msg s hid hdlc hfail
    simp [HandleCanMessage, hid, HandleThrottlePos, hdlc, writeEvent,
      hfail, Except.map, kThrottleId, kBrakeId, kSteeringId,
      kPaddleShifterId]
  · intro ok msg s hid hdlc hfail
    simp [HandleCanMessage, hid, HandleBrakePos, hdlc, writeEvent,
      hfail, Except.map, kThrottleId, kBrakeId, kSteeringId,
      kPaddleShifterId]
  · intro ok msg s hid hdlc hfail
    simp [HandleCanMessage, hid, HandleSteeringPos, hdlc, writeEvent,
      hfail, Except.map, kThrottleId, kBrakeId, kSteeringId,
      kPaddleShifterId]
  · intro ok msg s hid hdlc hfail
    simp [HandleCanMessage, hid, HandlePaddleShifter, hdlc, writeEvent,
      hfail, Except.map, kThrottleId, kBrakeId, kSteeringId,
      kPaddleShifterId]
  · intro ok msg s hid hdlc hok1 hfail
    simp [HandleCanMessage, hid, HandlePaddleShifter, hdlc, writeEvent,
      hok1, hfail, Except.map, kThrottleId, kBrakeId, kSteeringId,
      kPaddleShifterId]
  · intro ok msgs s c s1 h
    unfold CanPacketCallback at h
    cases hP : processFrames ok msgs false s with
    | error e =>
        rw [hP] at h
        rcases e with ⟨ce, se⟩
        simp at h
        have := processFrames_error_code ok msgs false s ce se hP
        omega
    | ok p =>
        rcases p with ⟨hd, s2⟩
        rw [hP] at h
        cases hd
        · simp at h
        · by_cases hw : ok s2.attempts <;> simp [writeEvent, hw] at h
  · intro ok msgs s s1 hP hfail
    unfold CanPacketCallback
    rw [hP]
    simp [writeEvent, hfail]

/-- Concrete check of Claim C4's theorem: with a channel that always
fails, a throttle frame makes processing exit -1 after logging; with a
channel that fails from the second write on, the batch's data event is
written, the sync failure is only logged, and the callback returns
normally. -/
theorem write_failure_asymmetry_witness :
    HandleCanMessage neverOk throttleFrame80 initState =
      .error (-1, ⟨1, [], [.failWriteThrottle]⟩) ∧
    CanPacketCallback failAfterFirst [throttleFrame80] initState =
      .ok ⟨2, [⟨EV_ABS, ABS_GAS, 128⟩], [.failWriteSync]⟩ := by
  constructor
  · have h := write_failure_asymmetry.1 neverOk throttleFrame80
      initState rfl rfl rfl
    simpa [initState] using h
  · have hP : processFrames failAfterFirst [throttleFrame80] false
        initState = .ok (true, ⟨1, [⟨EV_ABS, ABS_GAS, 128⟩], []⟩) := by
      rfl
    have h := write_failure_asymmetry.2.2.2.2.2.2 failAfterFirst
      [throttleFrame80] initState ⟨1, [⟨EV_ABS, ABS_GAS, 128⟩], []⟩
      hP rfl
    simpa using h

end CanJoystick
